import Mathlib

/-
Verification of the opt_connect ETL script (src/opt_connect.py) against its
specification.

The script is embedded shallowly:

* JSON payloads decoded by `response.json()` become the inductive type `Json`.
* Python dicts (which preserve insertion order and have unique keys) become
  association lists `PyDict = List (String × Json)`; `d[k] = v` becomes
  `setKey` (update in place if the key exists, else append), `d.pop(k)`
  becomes `popKey` (drops the entry for `k`; at every call site in the source
  the key is present, so the KeyError branch of `dict.pop` is unreachable and
  `popKey` is total).
* Python exceptions become the `PyError` type and fallible code returns
  `Except PyError _`.  `flatten` mutates its argument in place and returns
  the same object; the embedding threads the dict as explicit state, so the
  returned dict is the post-state of the argument object.
* Network calls are modelled by an environment `ApiEnv` mapping each request
  to its decoded JSON response; credentials only shape HTTP headers, so the
  response functions are keyed by the request parameters that appear in the
  URL.  The requests issued by the per-device loop are recorded in a trace.
* `arrow.get(x, 'YYYY-MM-DD')` becomes `arrowGetYMD`: it fails on non-string
  input (a `TypeError` in arrow) and on strings that do not denote a real
  calendar date in `YYYY-MM-DD` form (arrow's parser builds a `datetime`,
  which rejects out-of-range months/days, e.g. "2018-13-40").
-/

/-- JSON values as decoded by `response.json()` in the source. -/
inductive Json where
  | null
  | bool (b : Bool)
  | num (n : Int)
  | str (s : String)
  | arr (elems : List Json)
  | obj (fields : List (String × Json))

/-- The Python exceptions the source can raise.  `optConnectAPIException`
models the script's own `OptConnectAPIException`; its message is either the
provider's `message` field (a JSON value) or the string of the underlying
`TypeError`.  `parserError s` models arrow failing to parse the string `s`
as a `YYYY-MM-DD` date. -/
inductive PyError where
  | keyError (k : String)
  | indexError
  | typeError (msg : String)
  | attributeError
  | parserError (s : String)
  | optConnectAPIException (msg : Json ⊕ String)

/-- A Python dict with string keys: an insertion-ordered association list
with (invariantly) unique keys. -/
abbrev PyDict := List (String × Json)

/-- Lookup of `d[k]` (first entry with key `k`). -/
def lookupKey : PyDict → String → Option Json
  | [], _ => none
  | (k', v) :: rest, k => if k' = k then some v else lookupKey rest k

/-- Assignment `d[k] = v`: update the entry for `k` in place if present, else append. -/
def setKey : PyDict → String → Json → PyDict
  | [], k, v => [(k, v)]
  | (k', v') :: rest, k, v =>
    if k' = k then (k', v) :: rest else (k', v') :: setKey rest k v

/-- Python `d.pop(k)` at a call site where `k` is present: drop the entry for `k`. -/
def popKey : PyDict → String → PyDict
  | [], _ => []
  | (k', v) :: rest, k =>
    if k' = k then popKey rest k else (k', v) :: popKey rest k

/-- Subscript `d[k]` on the top-level dict, raising `KeyError` when absent. -/
def getItem (d : PyDict) (k : String) : Except PyError Json :=
  match lookupKey d k with
  | some v => Except.ok v
  | none => Except.error (PyError.keyError k)

/-- Subscript `v[k]` for an arbitrary JSON value and a string key: mapping lookup with
`KeyError` when absent, `TypeError` on non-mappings (matching Python's
messages for string/list/other subscripting). -/
def jsonGetItem : Json → String → Except PyError Json
  | Json.obj fields, k =>
    match lookupKey fields k with
    | some v => Except.ok v
    | none => Except.error (PyError.keyError k)
  | Json.str _, _ => Except.error (PyError.typeError "string indices must be integers")
  | Json.arr _, _ => Except.error (PyError.typeError "list indices must be integers")
  | _, _ => Except.error (PyError.typeError "object is not subscriptable")

/-- Subscript `v[0]`: first element of a list (IndexError when empty), first character
of a string, `KeyError` for a dict (no key `0`), `TypeError` otherwise. -/
def jsonIndex0 : Json → Except PyError Json
  | Json.arr (x :: _) => Except.ok x
  | Json.arr [] => Except.error PyError.indexError
  | Json.str s =>
    match s.toList with
    | c :: _ => Except.ok (Json.str (String.mk [c]))
    | [] => Except.error PyError.indexError
  | Json.obj _ => Except.error (PyError.keyError "0")
  | _ => Except.error (PyError.typeError "object is not subscriptable")

/-- Method `v.get(k, None)`: only mappings have `.get`; missing keys give `None`. -/
def jsonGet : Json → String → Except PyError Json
  | Json.obj fields, k => Except.ok ((lookupKey fields k).getD Json.null)
  | _, _ => Except.error PyError.attributeError

/-- Python truthiness of a JSON value. -/
def truthy : Json → Bool
  | Json.null => false
  | Json.bool b => b
  | Json.num n => n != 0
  | Json.str s => !s.isEmpty
  | Json.arr xs => !xs.isEmpty
  | Json.obj kvs => !kvs.isEmpty

/-- Iteration `for d in response`: iterating a list yields its elements, a dict its
keys (as strings), a string its characters; other values raise `TypeError`. -/
def pyIter : Json → Except PyError (List Json)
  | Json.arr xs => Except.ok xs
  | Json.obj kvs => Except.ok (kvs.map (fun p => Json.str p.1))
  | Json.str s => Except.ok (s.toList.map (fun c => Json.str (String.mk [c])))
  | _ => Except.error (PyError.typeError "object is not iterable")

/-- Gregorian leap-year test. -/
def isLeapYear (y : Nat) : Bool :=
  (y % 4 == 0 && y % 100 != 0) || y % 400 == 0

/-- Number of days in month `m` of year `y`. -/
def daysInMonth (y m : Nat) : Nat :=
  if m = 2 then (if isLeapYear y then 29 else 28)
  else if m = 4 ∨ m = 6 ∨ m = 9 ∨ m = 11 then 30
  else 31

/-- Numeric value of a decimal digit character. -/
def digitVal (c : Char) : Nat := c.toNat - '0'.toNat

/-- Parse a string of the exact shape `YYYY-MM-DD` into (year, month, day). -/
def parseYMD (s : String) : Option (Nat × Nat × Nat) :=
  match s.toList with
  | [y1, y2, y3, y4, '-', m1, m2, '-', d1, d2] =>
    if [y1, y2, y3, y4, m1, m2, d1, d2].all Char.isDigit then
      some (1000 * digitVal y1 + 100 * digitVal y2 + 10 * digitVal y3 + digitVal y4,
            10 * digitVal m1 + digitVal m2,
            10 * digitVal d1 + digitVal d2)
    else none
  | _ => none

/-- Does `s` denote a real calendar date in `YYYY-MM-DD` form? -/
def isValidYMD (s : String) : Bool :=
  match parseYMD s with
  | some (y, m, d) => 1 ≤ m && m ≤ 12 && 1 ≤ d && d ≤ daysInMonth y m
  | none => false

/-- Validation `arrow.get(v, 'YYYY-MM-DD')` used purely for validation: non-strings
(including `None`) raise a `TypeError` inside arrow, strings that are not a
real `YYYY-MM-DD` calendar date raise a parser error. -/
def arrowGetYMD : Json → Except PyError Unit
  | Json.str s =>
    if isValidYMD s then Except.ok () else Except.error (PyError.parserError s)
  | _ => Except.error (PyError.typeError "cannot parse argument of this type")

/-- A calendar date, as produced by `arrow.utcnow().to('US/Pacific')`. -/
structure Date where
  year : Nat
  month : Nat
  day : Nat
deriving DecidableEq

/-- Shifting `shift(days=-1)`: the previous calendar day. -/
def prevDay (d : Date) : Date :=
  if d.day > 1 then ⟨d.year, d.month, d.day - 1⟩
  else if d.month > 1 then ⟨d.year, d.month - 1, daysInMonth d.year (d.month - 1)⟩
  else ⟨d.year - 1, 12, 31⟩

/-- Zero-pad a number to two digits. -/
def pad2 (n : Nat) : String := if n < 10 then "0" ++ toString n else toString n

/-- Zero-pad a number to four digits. -/
def pad4 (n : Nat) : String :=
  if n < 10 then "000" ++ toString n
  else if n < 100 then "00" ++ toString n
  else if n < 1000 then "0" ++ toString n
  else toString n

/-- Formatting `.format('YYYY-MM-DD')`. -/
def formatYMD (d : Date) : String :=
  pad4 d.year ++ "-" ++ pad2 d.month ++ "-" ++ pad2 d.day

/- ---------------------------------------------------------------------------
The flatten function (source lines 111-125), split into its three stages.
Where the source re-reads a key it has not modified since the previous read
(e.g. `detail["customer"]` on lines 111 and 112, `detail["usages"][0]` on
lines 115 and 117 after only `data_used_date` was written, and
`detail["data_used_date"]` on line 116 right after being set on line 115),
the embedding reuses the bound value: all intervening writes are to other
keys, so the re-read returns the same value.
--------------------------------------------------------------------------- -/

/-- Lines 111-113:
`detail["customer_name"] = detail["customer"]["name"]`,
`detail["customer_id"] = detail["customer"]["id"]`,
`detail.pop("customer")`.
Each `match` propagates the exception of the subscript it models. -/
def flattenCustomer (detail : PyDict) : Except PyError PyDict :=
  match getItem detail "customer" with
  | Except.error e => Except.error e
  | Except.ok customer =>
    match jsonGetItem customer "name" with
    | Except.error e => Except.error e
    | Except.ok n =>
      match jsonGetItem customer "id" with
      | Except.error e => Except.error e
      | Except.ok i =>
        Except.ok (popKey (setKey (setKey detail "customer_name" n) "customer_id" i) "customer")

/-- Lines 114-121: the `if detail["usages"]:` block followed by
`detail.pop("usages")`.  On the truthy branch the source sets
`data_used_date` from `usages[0].get("date", None)`, validates it with
`arrow.get(_, 'YYYY-MM-DD')`, then sets `data_used` from
`usages[0].get("dataUsed", None)`; on the falsy branch both become `None`. -/
def flattenUsages (d : PyDict) : Except PyError PyDict :=
  match getItem d "usages" with
  | Except.error e => Except.error e
  | Except.ok u =>
    if truthy u then
      match jsonIndex0 u with
      | Except.error e => Except.error e
      | Except.ok u0 =>
        match jsonGet u0 "date" with
        | Except.error e => Except.error e
        | Except.ok dv =>
          match arrowGetYMD dv with
          | Except.error e => Except.error e
          | Except.ok _ =>
            match jsonGet u0 "dataUsed" with
            | Except.error e => Except.error e
            | Except.ok du =>
              Except.ok (popKey (setKey (setKey d "data_used_date" dv) "data_used" du) "usages")
    else
      Except.ok (popKey (setKey (setKey d "data_used_date" Json.null) "data_used" Json.null)
        "usages")

/-- Python `v == "staticIP"`: true exactly when `v` is that string (equality
between a string and a value of any other type is `False`, not an error). -/
def isStaticIPKey : Json → Bool
  | Json.str s => s = "staticIP"
  | _ => false

/-- Lines 122-124: `if detail["dynamicFields"][0]["key"] == "staticIP":`
sets `static_ip` from element 0's `value`; then `detail.pop("dynamicFields")`. -/
def flattenDynamic (d : PyDict) : Except PyError PyDict :=
  match getItem d "dynamicFields" with
  | Except.error e => Except.error e
  | Except.ok dyn =>
    match jsonIndex0 dyn with
    | Except.error e => Except.error e
    | Except.ok e0 =>
      match jsonGetItem e0 "key" with
      | Except.error e => Except.error e
      | Except.ok kv =>
        if isStaticIPKey kv then
          match jsonGetItem e0 "value" with
          | Except.error e => Except.error e
          | Except.ok v => Except.ok (popKey (setKey d "static_ip" v) "dynamicFields")
        else
          Except.ok (popKey d "dynamicFields")

/-- Function `flatten` (source lines 66-125): the three stages in source order.  The
Python function mutates `detail` in place and returns the very same object;
here the returned dict is the post-state of the argument. -/
def flatten (detail : PyDict) : Except PyError PyDict :=
  match flattenCustomer detail with
  | Except.error e => Except.error e
  | Except.ok d1 =>
    match flattenUsages d1 with
    | Except.error e => Except.error e
    | Except.ok d3 => flattenDynamic d3

/- ---------------------------------------------------------------------------
The fetch pipeline.
--------------------------------------------------------------------------- -/

/-- Function `fetch_auth` (lines 27-42), given the decoded JSON of the login response:
reads `response["token"]` then `response["apiKey"]` and returns
`(api_key, token)`. -/
def fetch_auth (response : Json) : Except PyError (Json × Json) := do
  let token ← jsonGetItem response "token"
  let api_key ← jsonGetItem response "apiKey"
  pure (api_key, token)

/-- The list comprehension `[d['summitId'] for d in response]`: evaluated
left to right, the first exception propagates. -/
def extractIds : List Json → Except PyError (List Json)
  | [] => Except.ok []
  | d :: rest => do
    let v ← jsonGetItem d "summitId"
    let vs ← extractIds rest
    pure (v :: vs)

/-- Function `fetch_summit_ids` (lines 45-63), given the decoded JSON of the devices
endpoint (credentials only shape HTTP headers and are omitted): builds the
id list; a `TypeError` during the comprehension is caught and re-raised as
`OptConnectAPIException(response.get('message', e))` — which itself raises
`AttributeError` when `response` is not a mapping.  Other exceptions
(e.g. `KeyError`) propagate unchanged. -/
def fetch_summit_ids (response : Json) : Except PyError (List Json) :=
  match (do extractIds (← pyIter response) : Except PyError (List Json)) with
  | Except.ok ids => Except.ok ids
  | Except.error (PyError.typeError msg) =>
    match response with
    | Json.obj kvs =>
      Except.error (PyError.optConnectAPIException
        (match lookupKey kvs "message" with
         | some m => Sum.inl m
         | none => Sum.inr msg))
    | _ => Except.error PyError.attributeError
  | Except.error e => Except.error e

/-- Merge `dict.update(src)` with `src` a decoded JSON mapping.  (Python's `update`
also accepts iterables of key/value pairs; no API response reasoned about
here has that shape, so non-mapping arguments are modelled as the
`TypeError` that a scalar argument raises.) -/
def pyUpdate (d : PyDict) (src : Json) : Except PyError PyDict :=
  match src with
  | Json.obj fields => Except.ok (fields.foldl (fun acc p => setKey acc p.1 p.2) d)
  | _ => Except.error (PyError.typeError "object is not iterable")

/-- Lines 153-155: `new_row = {}; new_row.update(details); new_row.update(usage)`. -/
def mergedRow (details usage : Json) : Except PyError PyDict := do
  pyUpdate (← pyUpdate ([] : PyDict) details) usage

/-- The decoded responses of the external API, one per request shape, plus
the current US/Pacific calendar date read by `arrow.utcnow().to('US/Pacific')`
at line 133. -/
structure ApiEnv where
  authResponse : Json
  devicesResponse : Json
  detailResponse : Json → Json
  usageResponse : Json → String → String → Json
  nowPacific : Date

/-- A per-device HTTP request issued by `fetch_detailed_info`. -/
inductive ApiRequest where
  | detail (summitId : Json)
  | usage (summitId : Json) (rangeStart rangeEnd : String)

/-- The body of the `for summit_id in summit_ids:` loop (lines 134-156):
fetch detail and usage, merge, flatten, append; the first exception stops
the loop and propagates.  Alongside the result, the list of issued requests
is recorded in order. -/
def fetchRows (env : ApiEnv) (rangeStart rangeEnd : String) :
    List Json → Except PyError (List PyDict) × List ApiRequest
  | [] => (Except.ok [], [])
  | summitId :: rest =>
    let details := env.detailResponse summitId
    let usage := env.usageResponse summitId rangeStart rangeEnd
    let reqs : List ApiRequest :=
      [ApiRequest.detail summitId, ApiRequest.usage summitId rangeStart rangeEnd]
    match Except.bind (mergedRow details usage) flatten with
    | Except.error e => (Except.error e, reqs)
    | Except.ok row =>
      match fetchRows env rangeStart rangeEnd rest with
      | (Except.ok rows, reqs') => (Except.ok (row :: rows), reqs ++ reqs')
      | (Except.error e, reqs') => (Except.error e, reqs ++ reqs')

/-- Function `fetch_detailed_info` (lines 128-157): the single-day date window
`end = start = arrow.utcnow().to('US/Pacific').shift(days=-1).format('YYYY-MM-DD')`
is computed once, before the loop (line 133), then the loop runs. -/
def fetch_detailed_info (env : ApiEnv) (summit_ids : List Json) :
    Except PyError (List PyDict) × List ApiRequest :=
  let window := formatYMD (prevDay env.nowPacific)
  fetchRows env window window summit_ids

/-- Outcome of one run of `main` (lines 200-204): which rows were handed to
`insert_info` (none when the run aborted first), the per-device requests
issued, and the uncaught exception if any. -/
structure RunOutcome where
  inserted : Option (List PyDict)
  requests : List ApiRequest
  err : Option PyError

/-- Function `main` (lines 200-204): authenticate, enumerate, fetch-and-flatten,
then a single bulk insert of all rows.  Any exception aborts the run before
the insert. -/
def main_run (env : ApiEnv) : RunOutcome :=
  match fetch_auth env.authResponse with
  | Except.error e => ⟨none, [], some e⟩
  | Except.ok _creds =>
    match fetch_summit_ids env.devicesResponse with
    | Except.error e => ⟨none, [], some e⟩
    | Except.ok ids =>
      match fetch_detailed_info env ids with
      | (Except.error e, reqs) => ⟨none, reqs, some e⟩
      | (Except.ok rows, reqs) => ⟨some rows, reqs, none⟩

/-- Put the nested `customer`, `usages` and `dynamicFields` containers of
`orig` back into a flattened row (used to state idempotence of `flatten`). -/
def restoreNested (orig flat : PyDict) : PyDict :=
  let r1 := match lookupKey orig "customer" with
    | some v => setKey flat "customer" v
    | none => flat
  let r2 := match lookupKey orig "usages" with
    | some v => setKey r1 "usages" v
    | none => r1
  match lookupKey orig "dynamicFields" with
  | some v => setKey r2 "dynamicFields" v
  | none => r2

/- ---------------------------------------------------------------------------
Concrete sample data (shapes taken from the docstring of `flatten`,
source lines 70-90), used by witnesses and counterexamples.
--------------------------------------------------------------------------- -/

/-- The merged detail+usage mapping of the docstring example. -/
def sampleMerged : PyDict :=
  [("summitId", Json.num 81056),
   ("carrier", Json.str "Verizon"),
   ("customer", Json.obj [("id", Json.num 3384), ("name", Json.str "Byte Foods-OC")]),
   ("serialNumber", Json.str "70B3D5D3B93A"),
   ("dynamicFields", Json.arr [Json.obj [("key", Json.str "staticIP"),
                                         ("value", Json.str "10.145.188.51")]]),
   ("dataPlan", Json.num 104857600),
   ("usages", Json.arr [Json.obj [("date", Json.str "2018-05-08"),
                                  ("dataUsed", Json.num 43063500)]])]

/-- The flattened row `flatten` produces from `sampleMerged`. -/
def sampleFlat : PyDict :=
  [("summitId", Json.num 81056),
   ("carrier", Json.str "Verizon"),
   ("serialNumber", Json.str "70B3D5D3B93A"),
   ("dataPlan", Json.num 104857600),
   ("customer_name", Json.str "Byte Foods-OC"),
   ("customer_id", Json.num 3384),
   ("data_used_date", Json.str "2018-05-08"),
   ("data_used", Json.num 43063500),
   ("static_ip", Json.str "10.145.188.51")]

/-- Like `sampleMerged` but with an empty `dynamicFields` sequence. -/
def sampleEmptyDyn : PyDict :=
  [("summitId", Json.num 81056),
   ("customer", Json.obj [("id", Json.num 3384), ("name", Json.str "Byte Foods-OC")]),
   ("dynamicFields", Json.arr []),
   ("usages", Json.arr [Json.obj [("date", Json.str "2018-05-08"),
                                  ("dataUsed", Json.num 43063500)]])]

/-- Like `sampleMerged` but whose first dynamic field's key is not
"staticIP" and which already carries a `static_ip` entry. -/
def samplePresetIp : PyDict :=
  [("summitId", Json.num 81056),
   ("static_ip", Json.str "10.0.0.9"),
   ("customer", Json.obj [("id", Json.num 3384), ("name", Json.str "Byte Foods-OC")]),
   ("dynamicFields", Json.arr [Json.obj [("key", Json.str "otherKey"),
                                         ("value", Json.str "x")]]),
   ("usages", Json.arr [Json.obj [("date", Json.str "2018-05-08"),
                                  ("dataUsed", Json.num 43063500)]])]

/-- Flattened row of `samplePresetIp`: the pre-existing `static_ip` survives. -/
def samplePresetIpFlat : PyDict :=
  [("summitId", Json.num 81056),
   ("static_ip", Json.str "10.0.0.9"),
   ("customer_name", Json.str "Byte Foods-OC"),
   ("customer_id", Json.num 3384),
   ("data_used_date", Json.str "2018-05-08"),
   ("data_used", Json.num 43063500)]

/-- A well-formed login response. -/
def sampleAuth : Json := Json.obj [("token", Json.str "tok"), ("apiKey", Json.str "key")]

/-- A detail response whose merge with `sampleUsageBad` reaches the date
validation with the malformed date "2018-13-40" (spec Scenario D). -/
def sampleDetailResp : Json :=
  Json.obj [("summitId", Json.num 81056),
            ("customer", Json.obj [("id", Json.num 3384), ("name", Json.str "Byte Foods-OC")]),
            ("dynamicFields", Json.arr [Json.obj [("key", Json.str "staticIP"),
                                                  ("value", Json.str "10.145.188.51")]])]

/-- A usage response whose single entry has the malformed date "2018-13-40". -/
def sampleUsageBad : Json :=
  Json.obj [("usages", Json.arr [Json.obj [("date", Json.str "2018-13-40"),
                                           ("dataUsed", Json.num 1)]])]

/-- A well-formed usage response. -/
def sampleUsageGood : Json :=
  Json.obj [("usages", Json.arr [Json.obj [("date", Json.str "2018-05-08"),
                                           ("dataUsed", Json.num 43063500)]])]

/-- Environment for the malformed-date scenario: enumeration returns one
device whose usage record carries "2018-13-40". -/
def sampleEnvBadDate : ApiEnv :=
  { authResponse := sampleAuth
    devicesResponse := Json.arr [Json.obj [("summitId", Json.num 81056)]]
    detailResponse := fun _ => sampleDetailResp
    usageResponse := fun _ _ _ => sampleUsageBad
    nowPacific := ⟨2018, 5, 9⟩ }

/-- Environment whose enumeration response is an error payload carrying a
`message` field. -/
def sampleEnvErrPayload : ApiEnv :=
  { authResponse := sampleAuth
    devicesResponse := Json.obj [("message", Json.str "Unauthorized")]
    detailResponse := fun _ => sampleDetailResp
    usageResponse := fun _ _ _ => sampleUsageGood
    nowPacific := ⟨2018, 5, 9⟩ }

/-- A fully well-formed environment with one device. -/
def sampleEnvGood : ApiEnv :=
  { authResponse := sampleAuth
    devicesResponse := Json.arr [Json.obj [("summitId", Json.num 81056)]]
    detailResponse := fun _ => sampleDetailResp
    usageResponse := fun _ _ _ => sampleUsageGood
    nowPacific := ⟨2018, 5, 9⟩ }

/-- Merge of `sampleDetailResp` and `sampleUsageBad` (Scenario D input). -/
def sampleMergedBad : PyDict :=
  [("summitId", Json.num 81056),
   ("customer", Json.obj [("id", Json.num 3384), ("name", Json.str "Byte Foods-OC")]),
   ("dynamicFields", Json.arr [Json.obj [("key", Json.str "staticIP"),
                                         ("value", Json.str "10.145.188.51")]]),
   ("usages", Json.arr [Json.obj [("date", Json.str "2018-13-40"),
                                  ("dataUsed", Json.num 1)]])]

/-- A merged mapping whose first usage entry has a valid date but no
`dataUsed` key. -/
def sampleNoDataUsed : PyDict :=
  [("summitId", Json.num 81056),
   ("customer", Json.obj [("id", Json.num 3384), ("name", Json.str "Byte Foods-OC")]),
   ("dynamicFields", Json.arr [Json.obj [("key", Json.str "staticIP"),
                                         ("value", Json.str "10.145.188.51")]]),
   ("usages", Json.arr [Json.obj [("date", Json.str "2018-05-08")]])]

/-- A merged mapping with no `static_ip` key whose first dynamic field's key
is not "staticIP". -/
def sampleOtherKey : PyDict :=
  [("summitId", Json.num 81056),
   ("customer", Json.obj [("id", Json.num 3384), ("name", Json.str "Byte Foods-OC")]),
   ("dynamicFields", Json.arr [Json.obj [("key", Json.str "otherKey"),
                                         ("value", Json.str "x")]]),
   ("usages", Json.arr [Json.obj [("date", Json.str "2018-05-08"),
                                  ("dataUsed", Json.num 43063500)]])]

/-- Flattened row of `sampleOtherKey`. -/
def sampleOtherKeyFlat : PyDict :=
  [("summitId", Json.num 81056),
   ("customer_name", Json.str "Byte Foods-OC"),
   ("customer_id", Json.num 3384),
   ("data_used_date", Json.str "2018-05-08"),
   ("data_used", Json.num 43063500)]

/- ---------------------------------------------------------------------------
Basic lemmas: `Except` reductions and the association-list operations.
--------------------------------------------------------------------------- -/

@[simp] theorem bind_ok_py {α β : Type} (a : α) (f : α → Except PyError β) :
    (Except.ok a : Except PyError α) >>= f = f a := rfl

@[simp] theorem bind_error_py {α β : Type} (e : PyError) (f : α → Except PyError β) :
    (Except.error e : Except PyError α) >>= f = Except.error e := rfl

@[simp] theorem pure_eq_ok_py {α : Type} (a : α) :
    (pure a : Except PyError α) = Except.ok a := rfl

theorem lookupKey_eq_none_iff {d : PyDict} {k : String} :
    lookupKey d k = none ↔ k ∉ d.map Prod.fst := by
  induction d with
  | nil => simp [lookupKey]
  | cons p rest ih =>
    obtain ⟨k', v⟩ := p
    by_cases h : k' = k
    · subst h; simp [lookupKey]
    · simp [lookupKey, h, ih, Ne.symm h]

theorem lookupKey_setKey_self (d : PyDict) (k : String) (v : Json) :
    lookupKey (setKey d k v) k = some v := by
  induction d with
  | nil => simp [setKey, lookupKey]
  | cons p rest ih =>
    obtain ⟨k', v'⟩ := p
    by_cases h : k' = k
    · subst h; simp [setKey, lookupKey]
    · simp [setKey, lookupKey, h, ih]

theorem lookupKey_setKey_ne {k k' : String} (h : k' ≠ k) (d : PyDict) (v : Json) :
    lookupKey (setKey d k v) k' = lookupKey d k' := by
  induction d with
  | nil => simp [setKey, lookupKey, Ne.symm h]
  | cons p rest ih =>
    obtain ⟨k'', v''⟩ := p
    by_cases h2 : k'' = k
    · subst h2; simp [setKey, lookupKey, Ne.symm h]
    · simp only [setKey, if_neg h2, lookupKey]
      by_cases h3 : k'' = k' <;> simp [h3, ih]

theorem lookupKey_popKey_self (d : PyDict) (k : String) :
    lookupKey (popKey d k) k = none := by
  induction d with
  | nil => simp [popKey, lookupKey]
  | cons p rest ih =>
    obtain ⟨k', v⟩ := p
    by_cases h : k' = k
    · simp [popKey, h, ih]
    · simp [popKey, lookupKey, h, ih]

theorem lookupKey_popKey_ne {k k' : String} (h : k' ≠ k) (d : PyDict) :
    lookupKey (popKey d k) k' = lookupKey d k' := by
  induction d with
  | nil => simp [popKey]
  | cons p rest ih =>
    obtain ⟨k'', v⟩ := p
    by_cases h2 : k'' = k
    · subst h2; simp [popKey, lookupKey, ih, Ne.symm h]
    · simp only [popKey, if_neg h2, lookupKey]
      by_cases h3 : k'' = k' <;> simp [h3, ih]

theorem setKey_eq_of_lookup {d : PyDict} {k : String} {v : Json}
    (h : lookupKey d k = some v) : setKey d k v = d := by
  induction d with
  | nil => simp [lookupKey] at h
  | cons p rest ih =>
    obtain ⟨k', v'⟩ := p
    by_cases h2 : k' = k
    · subst h2
      simp [lookupKey] at h
      simp [setKey, h]
    · simp only [lookupKey, if_neg h2] at h
      simp [setKey, h2, ih h]

theorem setKey_append_of_none {d : PyDict} {k : String}
    (h : lookupKey d k = none) (v : Json) : setKey d k v = d ++ [(k, v)] := by
  induction d with
  | nil => simp [setKey]
  | cons p rest ih =>
    obtain ⟨k', v'⟩ := p
    by_cases h2 : k' = k
    · subst h2; simp [lookupKey] at h
    · simp only [lookupKey, if_neg h2] at h
      simp [setKey, h2, ih h]

theorem popKey_eq_of_none {d : PyDict} {k : String}
    (h : lookupKey d k = none) : popKey d k = d := by
  induction d with
  | nil => simp [popKey]
  | cons p rest ih =>
    obtain ⟨k', v'⟩ := p
    by_cases h2 : k' = k
    · subst h2; simp [lookupKey] at h
    · simp only [lookupKey, if_neg h2] at h
      simp [popKey, h2, ih h]

theorem popKey_append (d l : PyDict) (k : String) :
    popKey (d ++ l) k = popKey d k ++ popKey l k := by
  induction d with
  | nil => simp [popKey]
  | cons p rest ih =>
    obtain ⟨k', v⟩ := p
    by_cases h : k' = k <;> simp [popKey, h, ih]

theorem lookupKey_append_of_none {d : PyDict} {k : String}
    (h : lookupKey d k = none) (l : PyDict) :
    lookupKey (d ++ l) k = lookupKey l k := by
  induction d with
  | nil => simp
  | cons p rest ih =>
    obtain ⟨k', v⟩ := p
    by_cases h2 : k' = k
    · subst h2; simp [lookupKey] at h
    · simp only [lookupKey, if_neg h2] at h
      simp [lookupKey, h2, ih h]

theorem popKey_setKey_self (d : PyDict) (k : String) (v : Json) :
    popKey (setKey d k v) k = popKey d k := by
  induction d with
  | nil => simp [setKey, popKey]
  | cons p rest ih =>
    obtain ⟨k', v'⟩ := p
    by_cases h : k' = k <;> simp [setKey, popKey, h, ih]

theorem popKey_setKey_ne {k k' : String} (h : k' ≠ k) (d : PyDict) (v : Json) :
    popKey (setKey d k v) k' = setKey (popKey d k') k v := by
  induction d with
  | nil => simp [setKey, popKey, Ne.symm h]
  | cons p rest ih =>
    obtain ⟨k'', v''⟩ := p
    by_cases h2 : k'' = k
    · subst h2; simp [setKey, popKey, Ne.symm h, ih]
    · by_cases h3 : k'' = k' <;> simp [setKey, popKey, h, h2, h3, ih]

theorem setKey_setKey_comm {d : PyDict} {k₁ k₂ : String} (h : k₁ ≠ k₂) {w : Json}
    (hmem : lookupKey d k₁ = some w) (v₁ v₂ : Json) :
    setKey (setKey d k₁ v₁) k₂ v₂ = setKey (setKey d k₂ v₂) k₁ v₁ := by
  induction d with
  | nil => simp [lookupKey] at hmem
  | cons p rest ih =>
    obtain ⟨k, v⟩ := p
    by_cases h1 : k = k₁
    · subst h1; simp [setKey, h, Ne.symm h]
    · by_cases h2 : k = k₂
      · subst h2; simp [setKey, h1, Ne.symm h1]
      · simp only [lookupKey, if_neg h1] at hmem
        simp [setKey, h1, h2, ih hmem]

/- ---------------------------------------------------------------------------
Inversion (elim) and construction (intro) lemmas for the flatten stages.
--------------------------------------------------------------------------- -/

theorem getItem_ok_iff {d : PyDict} {k : String} {v : Json} :
    getItem d k = Except.ok v ↔ lookupKey d k = some v := by
  unfold getItem
  cases lookupKey d k <;> simp

theorem flattenCustomer_ok_elim {m d1 : PyDict} (h : flattenCustomer m = Except.ok d1) :
    ∃ c n i, lookupKey m "customer" = some c ∧ jsonGetItem c "name" = Except.ok n ∧
      jsonGetItem c "id" = Except.ok i ∧
      d1 = popKey (setKey (setKey m "customer_name" n) "customer_id" i) "customer" := by
  unfold flattenCustomer at h
  cases hc : getItem m "customer" with
  | error e => simp [hc] at h
  | ok c =>
    simp only [hc] at h
    cases hn : jsonGetItem c "name" with
    | error e => simp [hn] at h
    | ok n =>
      simp only [hn] at h
      cases hi : jsonGetItem c "id" with
      | error e => simp [hi] at h
      | ok i =>
        simp only [hi, Except.ok.injEq] at h
        exact ⟨c, n, i, getItem_ok_iff.mp hc, hn, hi, h.symm⟩

theorem flattenCustomer_ok_intro {m : PyDict} {c n i : Json}
    (hc : lookupKey m "customer" = some c) (hn : jsonGetItem c "name" = Except.ok n)
    (hi : jsonGetItem c "id" = Except.ok i) :
    flattenCustomer m =
      Except.ok (popKey (setKey (setKey m "customer_name" n) "customer_id" i) "customer") := by
  unfold flattenCustomer
  rw [getItem_ok_iff.mpr hc]
  simp only [hn, hi]

theorem flattenUsages_ok_elim {d d3 : PyDict} (h : flattenUsages d = Except.ok d3) :
    ∃ u, lookupKey d "usages" = some u ∧
      ((truthy u = true ∧ ∃ u0 dv du,
          jsonIndex0 u = Except.ok u0 ∧ jsonGet u0 "date" = Except.ok dv ∧
          arrowGetYMD dv = Except.ok () ∧ jsonGet u0 "dataUsed" = Except.ok du ∧
          d3 = popKey (setKey (setKey d "data_used_date" dv) "data_used" du) "usages") ∨
       (truthy u = false ∧
          d3 = popKey (setKey (setKey d "data_used_date" Json.null) "data_used" Json.null)
            "usages")) := by
  unfold flattenUsages at h
  cases hu : getItem d "usages" with
  | error e => simp [hu] at h
  | ok u =>
    simp only [hu] at h
    cases ht : truthy u with
    | false =>
      simp only [ht, Bool.false_eq_true, if_false, Except.ok.injEq] at h
      exact ⟨u, getItem_ok_iff.mp hu, Or.inr ⟨ht, h.symm⟩⟩
    | true =>
      simp only [ht, if_true] at h
      cases h0 : jsonIndex0 u with
      | error e => simp [h0] at h
      | ok u0 =>
        simp only [h0] at h
        cases hd : jsonGet u0 "date" with
        | error e => simp [hd] at h
        | ok dv =>
          simp only [hd] at h
          cases hv : arrowGetYMD dv with
          | error e => simp [hv] at h
          | ok uu =>
            simp only [hv] at h
            cases hdu : jsonGet u0 "dataUsed" with
            | error e => simp [hdu] at h
            | ok du =>
              simp only [hdu, Except.ok.injEq] at h
              exact ⟨u, getItem_ok_iff.mp hu,
                Or.inl ⟨ht, u0, dv, du, h0, hd, hv, hdu, h.symm⟩⟩

theorem flattenUsages_ok_intro_true {d : PyDict} {u u0 dv du : Json}
    (hu : lookupKey d "usages" = some u) (ht : truthy u = true)
    (h0 : jsonIndex0 u = Except.ok u0) (hd : jsonGet u0 "date" = Except.ok dv)
    (hv : arrowGetYMD dv = Except.ok ()) (hdu : jsonGet u0 "dataUsed" = Except.ok du) :
    flattenUsages d =
      Except.ok (popKey (setKey (setKey d "data_used_date" dv) "data_used" du) "usages") := by
  unfold flattenUsages
  rw [getItem_ok_iff.mpr hu]
  simp only [ht, if_true, h0, hd, hv, hdu]

theorem flattenUsages_ok_intro_false {d : PyDict} {u : Json}
    (hu : lookupKey d "usages" = some u) (ht : truthy u = false) :
    flattenUsages d =
      Except.ok (popKey (setKey (setKey d "data_used_date" Json.null) "data_used" Json.null)
        "usages") := by
  unfold flattenUsages
  rw [getItem_ok_iff.mpr hu]
  simp only [ht, Bool.false_eq_true, if_false]

theorem flattenUsages_error_intro {d : PyDict} {u u0 dv : Json} {e : PyError}
    (hu : lookupKey d "usages" = some u) (ht : truthy u = true)
    (h0 : jsonIndex0 u = Except.ok u0) (hd : jsonGet u0 "date" = Except.ok dv)
    (hv : arrowGetYMD dv = Except.error e) :
    flattenUsages d = Except.error e := by
  unfold flattenUsages
  rw [getItem_ok_iff.mpr hu]
  simp only [ht, if_true, h0, hd, hv]

theorem flattenDynamic_ok_elim {d r : PyDict} (h : flattenDynamic d = Except.ok r) :
    ∃ dyn e0 kv, lookupKey d "dynamicFields" = some dyn ∧
      jsonIndex0 dyn = Except.ok e0 ∧ jsonGetItem e0 "key" = Except.ok kv ∧
      ((isStaticIPKey kv = true ∧ ∃ v, jsonGetItem e0 "value" = Except.ok v ∧
          r = popKey (setKey d "static_ip" v) "dynamicFields") ∨
       (isStaticIPKey kv = false ∧ r = popKey d "dynamicFields")) := by
  unfold flattenDynamic at h
  cases hdy : getItem d "dynamicFields" with
  | error e => simp [hdy] at h
  | ok dyn =>
    simp only [hdy] at h
    cases h0 : jsonIndex0 dyn with
    | error e => simp [h0] at h
    | ok e0 =>
      simp only [h0] at h
      cases hk : jsonGetItem e0 "key" with
      | error e => simp [hk] at h
      | ok kv =>
        simp only [hk] at h
        cases hs : isStaticIPKey kv with
        | false =>
          simp only [hs, Bool.false_eq_true, if_false, Except.ok.injEq] at h
          exact ⟨dyn, e0, kv, getItem_ok_iff.mp hdy, h0, hk, Or.inr ⟨hs, h.symm⟩⟩
        | true =>
          simp only [hs, if_true] at h
          cases hv : jsonGetItem e0 "value" with
          | error e => simp [hv] at h
          | ok v =>
            simp only [hv, Except.ok.injEq] at h
            exact ⟨dyn, e0, kv, getItem_ok_iff.mp hdy, h0, hk,
              Or.inl ⟨hs, v, hv, h.symm⟩⟩

theorem flattenDynamic_ok_intro_static {d : PyDict} {dyn e0 kv v : Json}
    (hdy : lookupKey d "dynamicFields" = some dyn) (h0 : jsonIndex0 dyn = Except.ok e0)
    (hk : jsonGetItem e0 "key" = Except.ok kv) (hs : isStaticIPKey kv = true)
    (hv : jsonGetItem e0 "value" = Except.ok v) :
    flattenDynamic d = Except.ok (popKey (setKey d "static_ip" v) "dynamicFields") := by
  unfold flattenDynamic
  rw [getItem_ok_iff.mpr hdy]
  simp only [h0, hk, hs, if_true, hv]

theorem flattenDynamic_ok_intro_other {d : PyDict} {dyn e0 kv : Json}
    (hdy : lookupKey d "dynamicFields" = some dyn) (h0 : jsonIndex0 dyn = Except.ok e0)
    (hk : jsonGetItem e0 "key" = Except.ok kv) (hs : isStaticIPKey kv = false) :
    flattenDynamic d = Except.ok (popKey d "dynamicFields") := by
  unfold flattenDynamic
  rw [getItem_ok_iff.mpr hdy]
  simp only [h0, hk, hs, Bool.false_eq_true, if_false]

theorem flatten_ok_elim {m r : PyDict} (h : flatten m = Except.ok r) :
    ∃ d1 d3, flattenCustomer m = Except.ok d1 ∧ flattenUsages d1 = Except.ok d3 ∧
      flattenDynamic d3 = Except.ok r := by
  unfold flatten at h
  cases h1 : flattenCustomer m with
  | error e => simp [h1] at h
  | ok d1 =>
    simp only [h1] at h
    cases h2 : flattenUsages d1 with
    | error e => simp [h2] at h
    | ok d3 =>
      simp only [h2] at h
      exact ⟨d1, d3, rfl, h2, h⟩

theorem flatten_ok_intro {m d1 d3 : PyDict} (h1 : flattenCustomer m = Except.ok d1)
    (h2 : flattenUsages d1 = Except.ok d3) : flatten m = flattenDynamic d3 := by
  unfold flatten
  rw [h1]
  simp only [h2]

theorem flatten_error_of_usages {m d1 : PyDict} {e : PyError}
    (h1 : flattenCustomer m = Except.ok d1) (h2 : flattenUsages d1 = Except.error e) :
    flatten m = Except.error e := by
  unfold flatten
  rw [h1]
  simp only [h2]

/-- Full description of a successful `flatten` run: what the input must have
contained and what the returned (post-state) mapping holds at every key the
function touches.  At untouched keys the result agrees with the input (used
via the `static_ip` clause of the non-"staticIP" branch). -/
theorem flatten_ok_full {m r : PyDict} (h : flatten m = Except.ok r) :
    ∃ c n i u dyn e0 kv,
      lookupKey m "customer" = some c ∧
      jsonGetItem c "name" = Except.ok n ∧
      jsonGetItem c "id" = Except.ok i ∧
      lookupKey m "usages" = some u ∧
      lookupKey m "dynamicFields" = some dyn ∧
      jsonIndex0 dyn = Except.ok e0 ∧
      jsonGetItem e0 "key" = Except.ok kv ∧
      lookupKey r "customer" = none ∧
      lookupKey r "usages" = none ∧
      lookupKey r "dynamicFields" = none ∧
      lookupKey r "customer_name" = some n ∧
      lookupKey r "customer_id" = some i ∧
      ((truthy u = true ∧ ∃ u0 dv du,
          jsonIndex0 u = Except.ok u0 ∧ jsonGet u0 "date" = Except.ok dv ∧
          arrowGetYMD dv = Except.ok () ∧ jsonGet u0 "dataUsed" = Except.ok du ∧
          lookupKey r "data_used_date" = some dv ∧ lookupKey r "data_used" = some du) ∨
       (truthy u = false ∧ lookupKey r "data_used_date" = some Json.null ∧
          lookupKey r "data_used" = some Json.null)) ∧
      ((isStaticIPKey kv = true ∧ ∃ v, jsonGetItem e0 "value" = Except.ok v ∧
          lookupKey r "static_ip" = some v) ∨
       (isStaticIPKey kv = false ∧ lookupKey r "static_ip" = lookupKey m "static_ip")) := by
  obtain ⟨d1, d3, h1, h2, h3⟩ := flatten_ok_elim h
  obtain ⟨c, n, i, hc, hn, hi, hd1⟩ := flattenCustomer_ok_elim h1
  obtain ⟨u, hu, hubr⟩ := flattenUsages_ok_elim h2
  obtain ⟨dyn, e0, kv, hdy, h0, hk, hdbr⟩ := flattenDynamic_ok_elim h3
  subst hd1
  simp only [lookupKey_popKey_ne, lookupKey_setKey_ne, ne_eq, not_false_eq_true,
    String.reduceEq] at hu
  rcases hubr with ⟨htr, u0, dv, du, hu0, hdd, hvv, hdu2, hd3⟩ | ⟨htf, hd3⟩ <;>
    subst hd3 <;>
    simp only [lookupKey_popKey_ne, lookupKey_setKey_ne, ne_eq, not_false_eq_true,
      String.reduceEq] at hdy <;>
    rcases hdbr with ⟨hsT, v, hv, hr⟩ | ⟨hsF, hr⟩ <;> subst hr
  · exact ⟨c, n, i, u, dyn, e0, kv, hc, hn, hi, hu, hdy, h0, hk,
      by simp [lookupKey_popKey_ne, lookupKey_popKey_self, lookupKey_setKey_ne],
      by simp [lookupKey_popKey_ne, lookupKey_popKey_self, lookupKey_setKey_ne],
      by simp [lookupKey_popKey_self],
      by simp [lookupKey_popKey_ne, lookupKey_setKey_ne, lookupKey_setKey_self],
      by simp [lookupKey_popKey_ne, lookupKey_setKey_ne, lookupKey_setKey_self],
      Or.inl ⟨htr, u0, dv, du, hu0, hdd, hvv, hdu2,
        by simp [lookupKey_popKey_ne, lookupKey_setKey_ne, lookupKey_setKey_self],
        by simp [lookupKey_popKey_ne, lookupKey_setKey_ne, lookupKey_setKey_self]⟩,
      Or.inl ⟨hsT, v, hv,
        by simp [lookupKey_popKey_ne, lookupKey_setKey_ne, lookupKey_setKey_self]⟩⟩
  · exact ⟨c, n, i, u, dyn, e0, kv, hc, hn, hi, hu, hdy, h0, hk,
      by simp [lookupKey_popKey_ne, lookupKey_popKey_self, lookupKey_setKey_ne],
      by simp [lookupKey_popKey_ne, lookupKey_popKey_self, lookupKey_setKey_ne],
      by simp [lookupKey_popKey_self],
      by simp [lookupKey_popKey_ne, lookupKey_setKey_ne, lookupKey_setKey_self],
      by simp [lookupKey_popKey_ne, lookupKey_setKey_ne, lookupKey_setKey_self],
      Or.inl ⟨htr, u0, dv, du, hu0, hdd, hvv, hdu2,
        by simp [lookupKey_popKey_ne, lookupKey_setKey_ne, lookupKey_setKey_self],
        by simp [lookupKey_popKey_ne, lookupKey_setKey_ne, lookupKey_setKey_self]⟩,
      Or.inr ⟨hsF,
        by simp [lookupKey_popKey_ne, lookupKey_setKey_ne, lookupKey_setKey_self]⟩⟩
  · exact ⟨c, n, i, u, dyn, e0, kv, hc, hn, hi, hu, hdy, h0, hk,
      by simp [lookupKey_popKey_ne, lookupKey_popKey_self, lookupKey_setKey_ne],
      by simp [lookupKey_popKey_ne, lookupKey_popKey_self, lookupKey_setKey_ne],
      by simp [lookupKey_popKey_self],
      by simp [lookupKey_popKey_ne, lookupKey_setKey_ne, lookupKey_setKey_self],
      by simp [lookupKey_popKey_ne, lookupKey_setKey_ne, lookupKey_setKey_self],
      Or.inr ⟨htf,
        by simp [lookupKey_popKey_ne, lookupKey_setKey_ne, lookupKey_setKey_self],
        by simp [lookupKey_popKey_ne, lookupKey_setKey_ne, lookupKey_setKey_self]⟩,
      Or.inl ⟨hsT, v, hv,
        by simp [lookupKey_popKey_ne, lookupKey_setKey_ne, lookupKey_setKey_self]⟩⟩
  · exact ⟨c, n, i, u, dyn, e0, kv, hc, hn, hi, hu, hdy, h0, hk,
      by simp [lookupKey_popKey_ne, lookupKey_popKey_self, lookupKey_setKey_ne],
      by simp [lookupKey_popKey_ne, lookupKey_popKey_self, lookupKey_setKey_ne],
      by simp [lookupKey_popKey_self],
      by simp [lookupKey_popKey_ne, lookupKey_setKey_ne, lookupKey_setKey_self],
      by simp [lookupKey_popKey_ne, lookupKey_setKey_ne, lookupKey_setKey_self],
      Or.inr ⟨htf,
        by simp [lookupKey_popKey_ne, lookupKey_setKey_ne, lookupKey_setKey_self],
        by simp [lookupKey_popKey_ne, lookupKey_setKey_ne, lookupKey_setKey_self]⟩,
      Or.inr ⟨hsF,
        by simp [lookupKey_popKey_ne, lookupKey_setKey_ne, lookupKey_setKey_self]⟩⟩

/- ---------------------------------------------------------------------------
Pipeline helper lemmas.
--------------------------------------------------------------------------- -/

/-- Behavior of `fetch_summit_ids` on a non-empty mapping response: iterating the dict
yields its (string) keys, subscripting the first key with 'summitId' raises
`TypeError`, which is re-raised as `OptConnectAPIException` carrying the
`message` field when present, else the `TypeError` text. -/
theorem fetch_summit_ids_obj (p : String × Json) (kvs : List (String × Json)) :
    fetch_summit_ids (Json.obj (p :: kvs)) =
      Except.error (PyError.optConnectAPIException
        (match lookupKey (p :: kvs) "message" with
         | some msgVal => Sum.inl msgVal
         | none => Sum.inr "string indices must be integers")) := by
  unfold fetch_summit_ids
  simp only [pyIter, List.map_cons, bind_ok_py, extractIds, jsonGetItem, bind_error_py]

/-- Keys written by `dict.update` from a JSON object with distinct field
names: the source object wins at its own keys, the base dict elsewhere. -/
theorem lookupKey_foldl_setKey (fields : List (String × Json)) (d : PyDict) (k : String)
    (hnd : (fields.map Prod.fst).Nodup) :
    lookupKey (fields.foldl (fun acc q => setKey acc q.1 q.2) d) k =
      match lookupKey fields k with
      | some v => some v
      | none => lookupKey d k := by
  induction fields generalizing d with
  | nil => simp [lookupKey]
  | cons q rest ih =>
    obtain ⟨k', v'⟩ := q
    simp only [List.map_cons, List.nodup_cons] at hnd
    obtain ⟨hnotin, hrest⟩ := hnd
    rw [List.foldl_cons, ih _ hrest]
    by_cases hk : k' = k
    · subst hk
      have hnone : lookupKey rest k' = none := lookupKey_eq_none_iff.mpr hnotin
      simp [hnone, lookupKey, lookupKey_setKey_self]
    · cases hrk : lookupKey rest k <;>
        simp [lookupKey, hk, hrk, lookupKey_setKey_ne (Ne.symm hk)]

/- ---------------------------------------------------------------------------
Claims.
--------------------------------------------------------------------------- -/

/-- Claim C7: for every merged input on which `flatten` returns a mapping,
that mapping contains none of the keys `customer`, `usages`, `dynamicFields`,
and contains `customer_name` equal to the input's `customer.name` and
`customer_id` equal to the input's `customer.id`. -/
theorem claim_C7 (m r : PyDict) (h : flatten m = Except.ok r) :
    lookupKey r "customer" = none ∧ lookupKey r "usages" = none ∧
    lookupKey r "dynamicFields" = none ∧
    ∃ c n i, lookupKey m "customer" = some c ∧ jsonGetItem c "name" = Except.ok n ∧
      jsonGetItem c "id" = Except.ok i ∧
      lookupKey r "customer_name" = some n ∧ lookupKey r "customer_id" = some i := by
  obtain ⟨c, n, i, u, dyn, e0, kv, hc, hn, hi, hu, hdy, h0, hk, rc, ru, rdy, rcn, rci, _, _⟩ :=
    flatten_ok_full h
  exact ⟨rc, ru, rdy, c, n, i, hc, hn, hi, rcn, rci⟩

/-- Witness for C7 at the docstring example. -/
theorem claim_C7_witness :
    lookupKey sampleFlat "customer" = none ∧ lookupKey sampleFlat "usages" = none ∧
    lookupKey sampleFlat "dynamicFields" = none ∧
    ∃ c n i, lookupKey sampleMerged "customer" = some c ∧
      jsonGetItem c "name" = Except.ok n ∧ jsonGetItem c "id" = Except.ok i ∧
      lookupKey sampleFlat "customer_name" = some n ∧
      lookupKey sampleFlat "customer_id" = some i :=
  claim_C7 sampleMerged sampleFlat rfl

/-- Claim C8 (amended): `flatten` is deterministic, but it is not
side-effect-free: the Python function mutates the mapping passed to it in
place (the returned mapping is the argument object after its in-place
updates), and on every successful run the post-state differs from the
pre-state. -/
theorem claim_C8 :
    (∀ m₁ m₂ : PyDict, m₁ = m₂ → flatten m₁ = flatten m₂) ∧
    (∀ m r : PyDict, flatten m = Except.ok r → r ≠ m) := by
  refine ⟨fun m₁ m₂ hm => by rw [hm], fun m r h => ?_⟩
  obtain ⟨c, n, i, u, dyn, e0, kv, hc, hn, hi, hu, hdy, h0, hk, rc, ru, rdy, rcn, rci, _, _⟩ :=
    flatten_ok_full h
  intro hrm
  rw [hrm, hc] at rc
  cases rc

/-- Witness for C8 at the docstring example. -/
theorem claim_C8_witness :
    flatten sampleMerged = flatten sampleMerged ∧ sampleFlat ≠ sampleMerged :=
  ⟨claim_C8.1 sampleMerged sampleMerged rfl, claim_C8.2 sampleMerged sampleFlat rfl⟩

/-- Counterexample to C8 as stated: `flatten` does not leave the mapping
passed to it unchanged — the post-state of the argument (which is also the
returned object) differs from the pre-state. -/
theorem claim_C8_counterexample :
    flatten sampleMerged = Except.ok sampleFlat ∧ sampleFlat ≠ sampleMerged := by
  refine ⟨rfl, fun heq => ?_⟩
  have hlk := congrArg (fun d => lookupKey d "customer") heq
  simp [sampleFlat, sampleMerged, lookupKey] at hlk

/-- Claim C5: the merged raw mapping handed to the flattener (built by
`new_row.update(details); new_row.update(usage)`) is the union of the detail
fields and the usage fields, the usage value winning on any key present in
both. -/
theorem claim_C5 (detailFields usageFields : List (String × Json)) (k : String)
    (hd : (detailFields.map Prod.fst).Nodup) (hu : (usageFields.map Prod.fst).Nodup) :
    ∃ m, mergedRow (Json.obj detailFields) (Json.obj usageFields) = Except.ok m ∧
      lookupKey m k =
        (match lookupKey usageFields k with
         | some v => some v
         | none => lookupKey detailFields k) := by
  refine ⟨_, rfl, ?_⟩
  show lookupKey
    (usageFields.foldl (fun acc q => setKey acc q.1 q.2)
      (detailFields.foldl (fun acc q => setKey acc q.1 q.2) ([] : PyDict))) k = _
  rw [lookupKey_foldl_setKey _ _ _ hu, lookupKey_foldl_setKey _ _ _ hd]
  cases lookupKey usageFields k <;> cases lookupKey detailFields k <;> simp [lookupKey]

/-- Witness for C5: key "b" collides, the usage value wins; key "a" comes
from the detail response. -/
theorem claim_C5_witness :
    (∃ m, mergedRow (Json.obj [("a", Json.num 1), ("b", Json.num 2)])
        (Json.obj [("b", Json.num 3)]) = Except.ok m ∧
      lookupKey m "b" = some (Json.num 3)) ∧
    (∃ m, mergedRow (Json.obj [("a", Json.num 1), ("b", Json.num 2)])
        (Json.obj [("b", Json.num 3)]) = Except.ok m ∧
      lookupKey m "a" = some (Json.num 1)) :=
  ⟨claim_C5 [("a", Json.num 1), ("b", Json.num 2)] [("b", Json.num 3)] "b"
      (by decide) (by decide),
   claim_C5 [("a", Json.num 1), ("b", Json.num 2)] [("b", Json.num 3)] "a"
      (by decide) (by decide)⟩

@[simp] theorem exceptBind_ok {α β : Type} (a : α) (f : α → Except PyError β) :
    Except.bind (Except.ok a) f = f a := rfl

@[simp] theorem exceptBind_error {α β : Type} (e : PyError) (f : α → Except PyError β) :
    Except.bind (Except.error e : Except PyError α) f = Except.error e := rfl

/-- Predicate `isStaticIPKey` holds exactly on the string "staticIP". -/
theorem isStaticIPKey_eq_true_iff {kv : Json} :
    isStaticIPKey kv = true ↔ kv = Json.str "staticIP" := by
  cases kv <;> simp [isStaticIPKey]

/-- Claim C4 (amended): if the enumeration response is a mapping with at
least one entry (an error payload), the run fails with
`OptConnectAPIException` carrying the payload's `message` field when present
and otherwise the underlying `TypeError`, before any per-device request is
issued and before any insert. -/
theorem claim_C4 (env : ApiEnv) (creds : Json × Json) (p : String × Json)
    (kvs : List (String × Json))
    (hauth : fetch_auth env.authResponse = Except.ok creds)
    (hresp : env.devicesResponse = Json.obj (p :: kvs)) :
    (main_run env).err = some (PyError.optConnectAPIException
      (match lookupKey (p :: kvs) "message" with
       | some msgVal => Sum.inl msgVal
       | none => Sum.inr "string indices must be integers")) ∧
    (main_run env).requests = [] ∧
    (main_run env).inserted = none := by
  have henum := fetch_summit_ids_obj p kvs
  rw [← hresp] at henum
  simp only [main_run, hauth, henum]
  exact ⟨trivial, trivial, trivial⟩

/-- Witness for C4 at a `message`-carrying error payload. -/
theorem claim_C4_witness :
    (main_run sampleEnvErrPayload).err = some (PyError.optConnectAPIException
      (Sum.inl (Json.str "Unauthorized"))) ∧
    (main_run sampleEnvErrPayload).requests = [] ∧
    (main_run sampleEnvErrPayload).inserted = none :=
  claim_C4 sampleEnvErrPayload (Json.str "key", Json.str "tok")
    ("message", Json.str "Unauthorized") [] rfl rfl

/-- Counterexample to C4 as stated: the empty mapping is an error payload
(not a sequence of device objects), yet enumeration raises nothing and
returns an empty id list. -/
theorem claim_C4_counterexample : fetch_summit_ids (Json.obj []) = Except.ok [] := rfl

/-- Requests issued by the per-device loop all carry the start/end window the
loop was given. -/
theorem fetchRows_usage_window {env : ApiEnv} {ws we : String} {ids : List Json}
    {req : ApiRequest} (hmem : req ∈ (fetchRows env ws we ids).2) :
    ∀ idj s e, req = ApiRequest.usage idj s e → s = ws ∧ e = we := by
  induction ids with
  | nil => simp [fetchRows] at hmem
  | cons idj0 rest ih =>
    unfold fetchRows at hmem
    cases hb : Except.bind
        (mergedRow (env.detailResponse idj0) (env.usageResponse idj0 ws we)) flatten with
    | error e0 =>
      simp only [hb, List.mem_cons, List.not_mem_nil, or_false] at hmem
      intro idj s e hreq
      subst hreq
      rcases hmem with hmem | hmem
      · simp at hmem
      · injection hmem with h1 h2 h3
        exact ⟨h2, h3⟩
    | ok row =>
      cases hrec : fetchRows env ws we rest with
      | mk res reqs' =>
        cases res with
        | error e1 =>
          simp only [hb, hrec, List.mem_append, List.mem_cons, List.not_mem_nil,
            or_false] at hmem
          rcases hmem with (hmem | hmem) | hmem
          · intro idj s e hreq; subst hreq; simp at hmem
          · intro idj s e hreq
            subst hreq
            injection hmem with h1 h2 h3
            exact ⟨h2, h3⟩
          · exact ih (by rw [hrec]; exact hmem)
        | ok rows =>
          simp only [hb, hrec, List.mem_append, List.mem_cons, List.not_mem_nil,
            or_false] at hmem
          rcases hmem with (hmem | hmem) | hmem
          · intro idj s e hreq; subst hreq; simp at hmem
          · intro idj s e hreq
            subst hreq
            injection hmem with h1 h2 h3
            exact ⟨h2, h3⟩
          · exact ih (by rw [hrec]; exact hmem)

/-- Claim C6: the as-of window (start = end = yesterday in US/Pacific) is
computed once per run, before the per-device loop, so every usage request of
the run carries the identical single-day window derived from the one clock
reading. -/
theorem claim_C6 (env : ApiEnv) (summit_ids : List Json) (req : ApiRequest)
    (hmem : req ∈ (fetch_detailed_info env summit_ids).2) :
    ∀ idj s e, req = ApiRequest.usage idj s e →
      s = formatYMD (prevDay env.nowPacific) ∧ e = formatYMD (prevDay env.nowPacific) := by
  unfold fetch_detailed_info at hmem
  exact fetchRows_usage_window hmem

/-- Witness for C6: the single usage request of a one-device run carries
yesterday's date on both ends of the window. -/
theorem claim_C6_witness :
    "2018-05-08" = formatYMD (prevDay sampleEnvGood.nowPacific) ∧
    "2018-05-08" = formatYMD (prevDay sampleEnvGood.nowPacific) :=
  claim_C6 sampleEnvGood [Json.num 81056]
    (ApiRequest.usage (Json.num 81056) "2018-05-08" "2018-05-08")
    (List.Mem.tail _ (List.Mem.head _)) (Json.num 81056) "2018-05-08" "2018-05-08" rfl

/-- A merged mapping whose first usage entry carries a date string that is
not a valid `YYYY-MM-DD` calendar date makes `flatten` fail with arrow's
parser error (the spec's `ValidationError`), provided the customer stage
before it succeeds. -/
theorem flatten_baddate {m : PyDict} {c n i u0 : Json} {us : List Json} {ds : String}
    (hc : lookupKey m "customer" = some c) (hn : jsonGetItem c "name" = Except.ok n)
    (hi : jsonGetItem c "id" = Except.ok i)
    (hu : lookupKey m "usages" = some (Json.arr (u0 :: us)))
    (hdate : jsonGet u0 "date" = Except.ok (Json.str ds))
    (hbad : isValidYMD ds = false) :
    flatten m = Except.error (PyError.parserError ds) := by
  have h1 := flattenCustomer_ok_intro hc hn hi
  have hu1 : lookupKey (popKey (setKey (setKey m "customer_name" n) "customer_id" i)
      "customer") "usages" = some (Json.arr (u0 :: us)) := by
    rw [lookupKey_popKey_ne (by decide), lookupKey_setKey_ne (by decide),
      lookupKey_setKey_ne (by decide)]
    exact hu
  have ht : truthy (Json.arr (u0 :: us)) = true := by simp [truthy]
  have h00 : jsonIndex0 (Json.arr (u0 :: us)) = Except.ok u0 := by simp [jsonIndex0]
  have hvv : arrowGetYMD (Json.str ds) = Except.error (PyError.parserError ds) := by
    simp [arrowGetYMD, hbad]
  have h2 := flattenUsages_error_intro hu1 ht h00 hdate hvv
  exact flatten_error_of_usages h1 h2

/-- Claim C3: a first usage entry whose date does not parse as a
`YYYY-MM-DD` calendar date makes `flatten` fail with the parser error
(`ValidationError`); when this happens for the first enumerated device, the
run aborts with that error and nothing is handed to the bulk insert. -/
theorem claim_C3 :
    (∀ (m : PyDict) (c n i u0 : Json) (us : List Json) (ds : String),
        lookupKey m "customer" = some c →
        jsonGetItem c "name" = Except.ok n →
        jsonGetItem c "id" = Except.ok i →
        lookupKey m "usages" = some (Json.arr (u0 :: us)) →
        jsonGet u0 "date" = Except.ok (Json.str ds) →
        isValidYMD ds = false →
        flatten m = Except.error (PyError.parserError ds)) ∧
    (∀ (env : ApiEnv) (creds : Json × Json) (idj : Json) (rest : List Json)
        (m : PyDict) (c n i u0 : Json) (us : List Json) (ds : String),
        fetch_auth env.authResponse = Except.ok creds →
        fetch_summit_ids env.devicesResponse = Except.ok (idj :: rest) →
        mergedRow (env.detailResponse idj)
          (env.usageResponse idj (formatYMD (prevDay env.nowPacific))
            (formatYMD (prevDay env.nowPacific))) = Except.ok m →
        lookupKey m "customer" = some c →
        jsonGetItem c "name" = Except.ok n →
        jsonGetItem c "id" = Except.ok i →
        lookupKey m "usages" = some (Json.arr (u0 :: us)) →
        jsonGet u0 "date" = Except.ok (Json.str ds) →
        isValidYMD ds = false →
        (main_run env).inserted = none ∧
        (main_run env).err = some (PyError.parserError ds)) := by
  constructor
  · intro m c n i u0 us ds hc hn hi hu hdate hbad
    exact flatten_baddate hc hn hi hu hdate hbad
  · intro env creds idj rest m c n i u0 us ds hauth henum hmerge hc hn hi hu hdate hbad
    have hflat := flatten_baddate hc hn hi hu hdate hbad
    simp only [main_run, hauth, henum, fetch_detailed_info, fetchRows, hmerge,
      exceptBind_ok, hflat]
    exact ⟨trivial, trivial⟩

/-- Witness for C3 at Scenario D ("2018-13-40"). -/
theorem claim_C3_witness :
    flatten sampleMergedBad = Except.error (PyError.parserError "2018-13-40") ∧
    (main_run sampleEnvBadDate).inserted = none ∧
    (main_run sampleEnvBadDate).err = some (PyError.parserError "2018-13-40") :=
  ⟨claim_C3.1 sampleMergedBad
      (Json.obj [("id", Json.num 3384), ("name", Json.str "Byte Foods-OC")])
      (Json.str "Byte Foods-OC") (Json.num 3384)
      (Json.obj [("date", Json.str "2018-13-40"), ("dataUsed", Json.num 1)]) []
      "2018-13-40" rfl rfl rfl rfl rfl rfl,
   claim_C3.2 sampleEnvBadDate (Json.str "key", Json.str "tok") (Json.num 81056) []
      sampleMergedBad
      (Json.obj [("id", Json.num 3384), ("name", Json.str "Byte Foods-OC")])
      (Json.str "Byte Foods-OC") (Json.num 3384)
      (Json.obj [("date", Json.str "2018-13-40"), ("dataUsed", Json.num 1)]) []
      "2018-13-40" rfl rfl rfl rfl rfl rfl rfl rfl rfl⟩

/-- Claim C1 (amended): when `flatten` returns a mapping, an input that
itself carries no `static_ip` key and whose first dynamic field's key is not
"staticIP" yields an output with no `static_ip` key; and no input whose
`dynamicFields` is the empty sequence ever yields a mapping (the subscript
`[0]` raises IndexError). -/
theorem claim_C1 :
    (∀ (m r : PyDict) (dyn e0 kv : Json),
        flatten m = Except.ok r →
        lookupKey m "static_ip" = none →
        lookupKey m "dynamicFields" = some dyn →
        jsonIndex0 dyn = Except.ok e0 →
        jsonGetItem e0 "key" = Except.ok kv →
        kv ≠ Json.str "staticIP" →
        lookupKey r "static_ip" = none) ∧
    (∀ m r : PyDict, flatten m = Except.ok r →
        lookupKey m "dynamicFields" ≠ some (Json.arr [])) := by
  constructor
  · intro m r dyn e0 kv h hms hdy h0 hk hne
    obtain ⟨c, n, i, u, dynx, e0x, kvx, hc, hn, hi, hu, hdyx, h0x, hkx, rc, ru, rdy,
      rcn, rci, _, hsbr⟩ := flatten_ok_full h
    rw [hdy] at hdyx
    injection hdyx with hdyx
    subst hdyx
    rw [h0] at h0x
    injection h0x with h0x
    subst h0x
    rw [hk] at hkx
    injection hkx with hkx
    subst hkx
    rcases hsbr with ⟨hsT, v, hv, rsip⟩ | ⟨hsF, rsip⟩
    · exact absurd (isStaticIPKey_eq_true_iff.mp hsT) hne
    · rw [rsip]
      exact hms
  · intro m r h hcontra
    obtain ⟨c, n, i, u, dynx, e0x, kvx, hc, hn, hi, hu, hdyx, h0x, hkx, _, _, _, _, _,
      _, _⟩ := flatten_ok_full h
    rw [hcontra] at hdyx
    injection hdyx with hdyx
    subst hdyx
    simp [jsonIndex0] at h0x

/-- Witness for C1: a non-"staticIP" first dynamic field on an input without
a `static_ip` key yields an output without one; and the docstring example
(whose `dynamicFields` is non-empty) indeed does not have empty
`dynamicFields`. -/
theorem claim_C1_witness :
    lookupKey sampleOtherKeyFlat "static_ip" = none ∧
    lookupKey sampleMerged "dynamicFields" ≠ some (Json.arr []) :=
  ⟨claim_C1.1 sampleOtherKey sampleOtherKeyFlat
      (Json.arr [Json.obj [("key", Json.str "otherKey"), ("value", Json.str "x")]])
      (Json.obj [("key", Json.str "otherKey"), ("value", Json.str "x")])
      (Json.str "otherKey") rfl rfl rfl rfl rfl (by simp),
   claim_C1.2 sampleMerged sampleFlat rfl⟩

/-- Counterexample to C1 as stated: on empty `dynamicFields` the flatten
operation raises IndexError instead of returning a `static_ip`-free mapping,
and a pre-existing `static_ip` entry survives even though the first dynamic
field's key is not "staticIP". -/
theorem claim_C1_counterexample :
    flatten sampleEmptyDyn = Except.error PyError.indexError ∧
    flatten samplePresetIp = Except.ok samplePresetIpFlat ∧
    lookupKey samplePresetIpFlat "static_ip" = some (Json.str "10.0.0.9") :=
  ⟨rfl, rfl, rfl⟩

/-- Claim C10: a first usage entry with a valid date but no `dataUsed` key
does not make `flatten` fail; the output's `data_used` is null. -/
theorem claim_C10 (m : PyDict) (c n i dyn e0 kv : Json)
    (uf : List (String × Json)) (us : List Json) (ds : String)
    (hc : lookupKey m "customer" = some c) (hn : jsonGetItem c "name" = Except.ok n)
    (hi : jsonGetItem c "id" = Except.ok i)
    (hu : lookupKey m "usages" = some (Json.arr (Json.obj uf :: us)))
    (hdate : lookupKey uf "date" = some (Json.str ds))
    (hvalid : isValidYMD ds = true)
    (hnodu : lookupKey uf "dataUsed" = none)
    (hdy : lookupKey m "dynamicFields" = some dyn)
    (h0 : jsonIndex0 dyn = Except.ok e0)
    (hk : jsonGetItem e0 "key" = Except.ok kv)
    (hbr : isStaticIPKey kv = false ∨ ∃ v, jsonGetItem e0 "value" = Except.ok v) :
    ∃ r, flatten m = Except.ok r ∧ lookupKey r "data_used" = some Json.null := by
  have h1 := flattenCustomer_ok_intro hc hn hi
  have hu1 : lookupKey (popKey (setKey (setKey m "customer_name" n) "customer_id" i)
      "customer") "usages" = some (Json.arr (Json.obj uf :: us)) := by
    rw [lookupKey_popKey_ne (by decide), lookupKey_setKey_ne (by decide),
      lookupKey_setKey_ne (by decide)]
    exact hu
  have ht : truthy (Json.arr (Json.obj uf :: us)) = true := by simp [truthy]
  have h00 : jsonIndex0 (Json.arr (Json.obj uf :: us)) = Except.ok (Json.obj uf) := by
    simp [jsonIndex0]
  have hdd : jsonGet (Json.obj uf) "date" = Except.ok (Json.str ds) := by
    simp [jsonGet, hdate]
  have hvv : arrowGetYMD (Json.str ds) = Except.ok () := by simp [arrowGetYMD, hvalid]
  have hddu : jsonGet (Json.obj uf) "dataUsed" = Except.ok Json.null := by
    simp [jsonGet, hnodu]
  have h2 := flattenUsages_ok_intro_true hu1 ht h00 hdd hvv hddu
  have hdy3 : lookupKey (popKey (setKey (setKey
      (popKey (setKey (setKey m "customer_name" n) "customer_id" i) "customer")
      "data_used_date" (Json.str ds)) "data_used" Json.null) "usages")
      "dynamicFields" = some dyn := by
    rw [lookupKey_popKey_ne (by decide), lookupKey_setKey_ne (by decide),
      lookupKey_setKey_ne (by decide), lookupKey_popKey_ne (by decide),
      lookupKey_setKey_ne (by decide), lookupKey_setKey_ne (by decide)]
    exact hdy
  rcases hbr with hsF | ⟨v, hv⟩
  · refine ⟨_, (flatten_ok_intro h1 h2).trans
      (flattenDynamic_ok_intro_other hdy3 h0 hk hsF), ?_⟩
    rw [lookupKey_popKey_ne (by decide), lookupKey_popKey_ne (by decide),
      lookupKey_setKey_self]
  · by_cases hsT : isStaticIPKey kv
    · refine ⟨_, (flatten_ok_intro h1 h2).trans
        (flattenDynamic_ok_intro_static hdy3 h0 hk hsT hv), ?_⟩
      rw [lookupKey_popKey_ne (by decide), lookupKey_setKey_ne (by decide),
        lookupKey_popKey_ne (by decide), lookupKey_setKey_self]
    · refine ⟨_, (flatten_ok_intro h1 h2).trans
        (flattenDynamic_ok_intro_other hdy3 h0 hk (by simpa using hsT)), ?_⟩
      rw [lookupKey_popKey_ne (by decide), lookupKey_popKey_ne (by decide),
        lookupKey_setKey_self]

/-- Witness for C10: the docstring example with `dataUsed` removed from its
single usage entry still flattens, with null `data_used`. -/
theorem claim_C10_witness :
    ∃ r, flatten sampleNoDataUsed = Except.ok r ∧
      lookupKey r "data_used" = some Json.null :=
  claim_C10 sampleNoDataUsed
    (Json.obj [("id", Json.num 3384), ("name", Json.str "Byte Foods-OC")])
    (Json.str "Byte Foods-OC") (Json.num 3384)
    (Json.arr [Json.obj [("key", Json.str "staticIP"),
                         ("value", Json.str "10.145.188.51")]])
    (Json.obj [("key", Json.str "staticIP"), ("value", Json.str "10.145.188.51")])
    (Json.str "staticIP")
    [("date", Json.str "2018-05-08")] [] "2018-05-08"
    rfl rfl rfl rfl rfl rfl rfl rfl rfl rfl
    (Or.inr ⟨Json.str "10.145.188.51", rfl⟩)

/-- Usage-sequence entries past index 0 never influence a successful
flatten: replacing the tail of the `usages` list leaves the result
unchanged.  The proof commutes the untouched `usages` entry through the
writes of the customer and usage stages until it is consumed by
`detail.pop("usages")`. -/
theorem flatten_tail_irrelevant {m r : PyDict} {u0 : Json} {us us' : List Json}
    (hum : lookupKey m "usages" = some (Json.arr (u0 :: us)))
    (h : flatten m = Except.ok r) :
    flatten (setKey m "usages" (Json.arr (u0 :: us'))) = Except.ok r := by
  obtain ⟨d1, d3, h1, h2, h3⟩ := flatten_ok_elim h
  obtain ⟨c, n, i, hc, hn, hi, hd1⟩ := flattenCustomer_ok_elim h1
  obtain ⟨u, hu, hubr⟩ := flattenUsages_ok_elim h2
  subst hd1
  simp only [lookupKey_popKey_ne, lookupKey_setKey_ne, ne_eq, not_false_eq_true,
    String.reduceEq] at hu
  rw [hum] at hu
  injection hu with hu
  subst hu
  rcases hubr with ⟨htr, u0x, dv, du, hu0, hdd, hvv, hdu2, hd3⟩ | ⟨htf, hd3⟩
  · simp only [jsonIndex0, Except.ok.injEq] at hu0
    subst hu0
    subst hd3
    have hc' : lookupKey (setKey m "usages" (Json.arr (u0 :: us'))) "customer" = some c := by
      rw [lookupKey_setKey_ne (by decide)]
      exact hc
    have h1' := flattenCustomer_ok_intro hc' hn hi
    have e1 : setKey (setKey m "usages" (Json.arr (u0 :: us'))) "customer_name" n
        = setKey (setKey m "customer_name" n) "usages" (Json.arr (u0 :: us')) :=
      setKey_setKey_comm (by decide) hum _ _
    have hum1 : lookupKey (setKey m "customer_name" n) "usages"
        = some (Json.arr (u0 :: us)) := by
      rw [lookupKey_setKey_ne (by decide)]
      exact hum
    have e2 : setKey (setKey (setKey m "customer_name" n) "usages"
          (Json.arr (u0 :: us'))) "customer_id" i
        = setKey (setKey (setKey m "customer_name" n) "customer_id" i) "usages"
            (Json.arr (u0 :: us')) :=
      setKey_setKey_comm (by decide) hum1 _ _
    have e3 : popKey (setKey (setKey (setKey m "customer_name" n) "customer_id" i)
          "usages" (Json.arr (u0 :: us'))) "customer"
        = setKey (popKey (setKey (setKey m "customer_name" n) "customer_id" i)
            "customer") "usages" (Json.arr (u0 :: us')) :=
      popKey_setKey_ne (by decide) _ _
    rw [e1, e2, e3] at h1'
    have hud1 : lookupKey (popKey (setKey (setKey m "customer_name" n) "customer_id" i)
        "customer") "usages" = some (Json.arr (u0 :: us)) := by
      rw [lookupKey_popKey_ne (by decide), lookupKey_setKey_ne (by decide),
        lookupKey_setKey_ne (by decide)]
      exact hum
    have hus' : lookupKey (setKey (popKey (setKey (setKey m "customer_name" n)
        "customer_id" i) "customer") "usages" (Json.arr (u0 :: us'))) "usages"
        = some (Json.arr (u0 :: us')) := lookupKey_setKey_self _ _ _
    have ht' : truthy (Json.arr (u0 :: us')) = true := by simp [truthy]
    have h00' : jsonIndex0 (Json.arr (u0 :: us')) = Except.ok u0 := by simp [jsonIndex0]
    have h2' := flattenUsages_ok_intro_true hus' ht' h00' hdd hvv hdu2
    have f1 : setKey (setKey (popKey (setKey (setKey m "customer_name" n)
          "customer_id" i) "customer") "usages" (Json.arr (u0 :: us')))
          "data_used_date" dv
        = setKey (setKey (popKey (setKey (setKey m "customer_name" n)
            "customer_id" i) "customer") "data_used_date" dv) "usages"
            (Json.arr (u0 :: us')) :=
      setKey_setKey_comm (by decide) hud1 _ _
    have hud2 : lookupKey (setKey (popKey (setKey (setKey m "customer_name" n)
        "customer_id" i) "customer") "data_used_date" dv) "usages"
        = some (Json.arr (u0 :: us)) := by
      rw [lookupKey_setKey_ne (by decide)]
      exact hud1
    have f2 : setKey (setKey (setKey (popKey (setKey (setKey m "customer_name" n)
          "customer_id" i) "customer") "data_used_date" dv) "usages"
          (Json.arr (u0 :: us'))) "data_used" du
        = setKey (setKey (setKey (popKey (setKey (setKey m "customer_name" n)
            "customer_id" i) "customer") "data_used_date" dv) "data_used" du)
            "usages" (Json.arr (u0 :: us')) :=
      setKey_setKey_comm (by decide) hud2 _ _
    have f3 : popKey (setKey (setKey (setKey (popKey (setKey (setKey m
          "customer_name" n) "customer_id" i) "customer") "data_used_date" dv)
          "data_used" du) "usages" (Json.arr (u0 :: us'))) "usages"
        = popKey (setKey (setKey (popKey (setKey (setKey m "customer_name" n)
            "customer_id" i) "customer") "data_used_date" dv) "data_used" du)
            "usages" :=
      popKey_setKey_self _ _ _
    rw [f1, f2, f3] at h2'
    exact (flatten_ok_intro h1' h2').trans h3
  · simp [truthy] at htf

/-- Claim C2: a successful flatten of an input with non-empty `usages` sets
`data_used_date`/`data_used` from the first entry's `date`/`dataUsed`
fields; with an empty `usages` sequence both are null; and entries past
index 0 never influence the result. -/
theorem claim_C2 :
    (∀ (m r : PyDict) (u0 : Json) (us : List Json),
        flatten m = Except.ok r →
        lookupKey m "usages" = some (Json.arr (u0 :: us)) →
        ∃ dv du, jsonGet u0 "date" = Except.ok dv ∧
          jsonGet u0 "dataUsed" = Except.ok du ∧
          lookupKey r "data_used_date" = some dv ∧
          lookupKey r "data_used" = some du) ∧
    (∀ m r : PyDict,
        flatten m = Except.ok r →
        lookupKey m "usages" = some (Json.arr []) →
        lookupKey r "data_used_date" = some Json.null ∧
        lookupKey r "data_used" = some Json.null) ∧
    (∀ (m r : PyDict) (u0 : Json) (us us' : List Json),
        flatten m = Except.ok r →
        lookupKey m "usages" = some (Json.arr (u0 :: us)) →
        flatten (setKey m "usages" (Json.arr (u0 :: us'))) = Except.ok r) := by
  refine ⟨?_, ?_, ?_⟩
  · intro m r u0 us h hu
    obtain ⟨c, n, i, u, dyn, e0, kv, hc, hn, hi, hum, hdy, h0, hk, rc, ru, rdy, rcn,
      rci, hubr, hsbr⟩ := flatten_ok_full h
    rw [hu] at hum
    injection hum with hum
    subst hum
    rcases hubr with ⟨htr, u0x, dv, du, hu0, hdd, hvv, hdu2, rdud, rdu⟩ | ⟨htf, _, _⟩
    · simp only [jsonIndex0, Except.ok.injEq] at hu0
      subst hu0
      exact ⟨dv, du, hdd, hdu2, rdud, rdu⟩
    · simp [truthy] at htf
  · intro m r h hu
    obtain ⟨c, n, i, u, dyn, e0, kv, hc, hn, hi, hum, hdy, h0, hk, rc, ru, rdy, rcn,
      rci, hubr, hsbr⟩ := flatten_ok_full h
    rw [hu] at hum
    injection hum with hum
    subst hum
    rcases hubr with ⟨htr, _, _, _, _, _, _, _, _⟩ | ⟨htf, rdud, rdu⟩
    · simp [truthy] at htr
    · exact ⟨rdud, rdu⟩
  · intro m r u0 us us' h hu
    exact flatten_tail_irrelevant hu h

/-- Witness for C2 at the docstring example. -/
theorem claim_C2_witness :
    ∃ dv du,
      jsonGet (Json.obj [("date", Json.str "2018-05-08"),
        ("dataUsed", Json.num 43063500)]) "date" = Except.ok dv ∧
      jsonGet (Json.obj [("date", Json.str "2018-05-08"),
        ("dataUsed", Json.num 43063500)]) "dataUsed" = Except.ok du ∧
      lookupKey sampleFlat "data_used_date" = some dv ∧
      lookupKey sampleFlat "data_used" = some du :=
  claim_C2.1 sampleMerged sampleFlat
    (Json.obj [("date", Json.str "2018-05-08"), ("dataUsed", Json.num 43063500)]) []
    rfl rfl

/-- Re-running the customer stage on a dict that already carries the derived
`customer_name`/`customer_id` values only pops `customer`. -/
theorem flattenCustomer_rerun {d : PyDict} {c n i : Json}
    (hc : lookupKey d "customer" = some c)
    (hn : jsonGetItem c "name" = Except.ok n)
    (hi : jsonGetItem c "id" = Except.ok i)
    (hcn : lookupKey d "customer_name" = some n)
    (hci : lookupKey d "customer_id" = some i) :
    flattenCustomer d = Except.ok (popKey d "customer") := by
  have h := flattenCustomer_ok_intro hc hn hi
  rw [setKey_eq_of_lookup hcn] at h
  rw [setKey_eq_of_lookup hci] at h
  exact h

/-- Re-running the usage stage on a dict that already carries the derived
`data_used_date`/`data_used` values only pops `usages`. -/
theorem flattenUsages_rerun {d : PyDict} {u DV DU : Json}
    (hus : lookupKey d "usages" = some u)
    (hdud : lookupKey d "data_used_date" = some DV)
    (hdu : lookupKey d "data_used" = some DU)
    (hbr : (truthy u = true ∧ ∃ u0, jsonIndex0 u = Except.ok u0 ∧
              jsonGet u0 "date" = Except.ok DV ∧ arrowGetYMD DV = Except.ok () ∧
              jsonGet u0 "dataUsed" = Except.ok DU) ∨
           (truthy u = false ∧ DV = Json.null ∧ DU = Json.null)) :
    flattenUsages d = Except.ok (popKey d "usages") := by
  rcases hbr with ⟨htr, u0, h00, hdd, hvv, hdu2⟩ | ⟨htf, hDV, hDU⟩
  · have h := flattenUsages_ok_intro_true hus htr h00 hdd hvv hdu2
    rw [setKey_eq_of_lookup hdud] at h
    rw [setKey_eq_of_lookup hdu] at h
    exact h
  · subst hDV
    subst hDU
    have h := flattenUsages_ok_intro_false hus htf
    rw [setKey_eq_of_lookup hdud] at h
    rw [setKey_eq_of_lookup hdu] at h
    exact h

/-- Re-running the dynamic-fields stage on a dict that already carries the
derived `static_ip` value (when one is derived) only pops `dynamicFields`. -/
theorem flattenDynamic_rerun {d : PyDict} {dyn e0 kv : Json}
    (hdy : lookupKey d "dynamicFields" = some dyn)
    (h0 : jsonIndex0 dyn = Except.ok e0)
    (hk : jsonGetItem e0 "key" = Except.ok kv)
    (hbr : (isStaticIPKey kv = true ∧ ∃ v, jsonGetItem e0 "value" = Except.ok v ∧
              lookupKey d "static_ip" = some v) ∨ isStaticIPKey kv = false) :
    flattenDynamic d = Except.ok (popKey d "dynamicFields") := by
  rcases hbr with ⟨hsT, v, hv, hsip⟩ | hsF
  · have h := flattenDynamic_ok_intro_static hdy h0 hk hsT hv
    rw [setKey_eq_of_lookup hsip] at h
    exact h
  · exact flattenDynamic_ok_intro_other hdy h0 hk hsF

/-- Restoring the three nested containers onto a finished row and flattening
again reproduces the row exactly. -/
theorem flatten_restore {r : PyDict} {c n i u dyn e0 kv : Json}
    (hn : jsonGetItem c "name" = Except.ok n)
    (hi : jsonGetItem c "id" = Except.ok i)
    (rcust : lookupKey r "customer" = none)
    (rusages : lookupKey r "usages" = none)
    (rdynF : lookupKey r "dynamicFields" = none)
    (rcn : lookupKey r "customer_name" = some n)
    (rci : lookupKey r "customer_id" = some i)
    (h0 : jsonIndex0 dyn = Except.ok e0)
    (hk : jsonGetItem e0 "key" = Except.ok kv)
    (husbr : (truthy u = true ∧ ∃ u0 DV DU,
        jsonIndex0 u = Except.ok u0 ∧ jsonGet u0 "date" = Except.ok DV ∧
        arrowGetYMD DV = Except.ok () ∧ jsonGet u0 "dataUsed" = Except.ok DU ∧
        lookupKey r "data_used_date" = some DV ∧ lookupKey r "data_used" = some DU) ∨
      (truthy u = false ∧ lookupKey r "data_used_date" = some Json.null ∧
        lookupKey r "data_used" = some Json.null))
    (hsbr : (isStaticIPKey kv = true ∧ ∃ v, jsonGetItem e0 "value" = Except.ok v ∧
        lookupKey r "static_ip" = some v) ∨ isStaticIPKey kv = false) :
    flatten (setKey (setKey (setKey r "customer" c) "usages" u) "dynamicFields" dyn)
      = Except.ok r := by
  have hcM : lookupKey (setKey (setKey (setKey r "customer" c) "usages" u)
      "dynamicFields" dyn) "customer" = some c := by
    simp [lookupKey_setKey_ne, lookupKey_setKey_self]
  have hcnM : lookupKey (setKey (setKey (setKey r "customer" c) "usages" u)
      "dynamicFields" dyn) "customer_name" = some n := by
    simp [lookupKey_setKey_ne, rcn]
  have hciM : lookupKey (setKey (setKey (setKey r "customer" c) "usages" u)
      "dynamicFields" dyn) "customer_id" = some i := by
    simp [lookupKey_setKey_ne, rci]
  have h1 := flattenCustomer_rerun hcM hn hi hcnM hciM
  have p1 : popKey (setKey (setKey (setKey r "customer" c) "usages" u)
      "dynamicFields" dyn) "customer" = setKey (setKey r "usages" u)
        "dynamicFields" dyn := by
    rw [popKey_setKey_ne (by decide), popKey_setKey_ne (by decide), popKey_setKey_self,
      popKey_eq_of_none rcust]
  rw [p1] at h1
  have husM : lookupKey (setKey (setKey r "usages" u) "dynamicFields" dyn) "usages"
      = some u := by
    simp [lookupKey_setKey_ne, lookupKey_setKey_self]
  have h2 : flattenUsages (setKey (setKey r "usages" u) "dynamicFields" dyn)
      = Except.ok (popKey (setKey (setKey r "usages" u) "dynamicFields" dyn)
          "usages") := by
    rcases husbr with ⟨htr, u0, DV, DU, h00, hdd, hvv, hdu2, rdud, rdu⟩ |
      ⟨htf, rdud, rdu⟩
    · exact flattenUsages_rerun husM (by simp [lookupKey_setKey_ne, rdud])
        (by simp [lookupKey_setKey_ne, rdu]) (Or.inl ⟨htr, u0, h00, hdd, hvv, hdu2⟩)
    · exact flattenUsages_rerun husM (by simp [lookupKey_setKey_ne, rdud])
        (by simp [lookupKey_setKey_ne, rdu]) (Or.inr ⟨htf, rfl, rfl⟩)
  have p2 : popKey (setKey (setKey r "usages" u) "dynamicFields" dyn) "usages"
      = setKey r "dynamicFields" dyn := by
    rw [popKey_setKey_ne (by decide), popKey_setKey_self, popKey_eq_of_none rusages]
  rw [p2] at h2
  have hdyM : lookupKey (setKey r "dynamicFields" dyn) "dynamicFields" = some dyn :=
    lookupKey_setKey_self _ _ _
  have h3 : flattenDynamic (setKey r "dynamicFields" dyn)
      = Except.ok (popKey (setKey r "dynamicFields" dyn) "dynamicFields") := by
    rcases hsbr with ⟨hsT, v, hv, rsip⟩ | hsF
    · exact flattenDynamic_rerun hdyM h0 hk
        (Or.inl ⟨hsT, v, hv, by simp [lookupKey_setKey_ne, rsip]⟩)
    · exact flattenDynamic_rerun hdyM h0 hk (Or.inr hsF)
  have p3 : popKey (setKey r "dynamicFields" dyn) "dynamicFields" = r := by
    rw [popKey_setKey_self, popKey_eq_of_none rdynF]
  rw [p3] at h3
  exact (flatten_ok_intro h1 h2).trans h3

/-- Claim C9: flattening is idempotent on its output shape — restoring the
nested `customer`, `usages`, `dynamicFields` containers from the original
input onto the flattened row and flattening again yields the same row. -/
theorem claim_C9 (m r : PyDict) (h : flatten m = Except.ok r) :
    flatten (restoreNested m r) = Except.ok r := by
  obtain ⟨c, n, i, u, dyn, e0, kv, hc, hn, hi, hu, hdy, h0, hk, rc, ru, rdy, rcn, rci,
    hubr, hsbr⟩ := flatten_ok_full h
  have hrest : restoreNested m r =
      setKey (setKey (setKey r "customer" c) "usages" u) "dynamicFields" dyn := by
    unfold restoreNested
    simp only [hc, hu, hdy]
  rw [hrest]
  exact flatten_restore hn hi rc ru rdy rcn rci h0 hk hubr (hsbr.imp id And.left)

/-- Witness for C9 at the docstring example. -/
theorem claim_C9_witness :
    flatten (restoreNested sampleMerged sampleFlat) = Except.ok sampleFlat :=
  claim_C9 sampleMerged sampleFlat rfl
